import Mathlib

/-!
Verification of the client-side lesson/exercise state machine and the podcast
library state of the japaneseLessons repository.

The embedding is a shallow one: each React component's event handlers become
pure functions over an explicit state record, network calls become explicit
outcomes (`Except`) passed in, and emitted callbacks / HTTP requests become
explicit return values.  JavaScript numbers are modelled as exact naturals /
rationals (all quantities involved are non-negative integers and exact
percentage fractions); `Math.round` on a non-negative quotient is standard
round-half-up and is modelled exactly on rationals.
-/

/-- One exercise of a lesson, as declared in `src/lib/api.ts` (`LessonData.exercises`). -/
structure Exercise where
  type : String := ""
  word : String := ""
  reading : String := ""
  meaning : String := ""
  question : String := ""
  options : List String := []
  correct : String := ""
  context : Option String := none
  context_en : Option String := none
  audio_url : Option String := none
deriving DecidableEq, Repr

/-- A lesson payload, as declared in `src/lib/api.ts` (`LessonData`). -/
structure LessonData where
  exercises : List Exercise
  lesson_number : Option Nat := none
  episode_number : Option Nat := none
deriving DecidableEq, Repr

/-- One recorded exercise outcome, as built in `LessonContent.handleAnswer`. -/
structure ExerciseResult where
  word : String
  is_correct : Bool
  question : String
deriving DecidableEq, Repr

/-- The progress record posted upstream, as declared in `src/lib/api.ts` (`ProgressData`). -/
structure ProgressData where
  lesson_number : Option Nat := none
  lesson_id : Option String := none
  completed : Bool
  score : Nat
  questions_total : Nat
  questions_correct : Nat
  timestamp : String
  exercises : List ExerciseResult
deriving DecidableEq, Repr

/-- Model of JavaScript `Math.round (p / q)` for non-negative integers `p`, `q`:
round-half-up of the exact rational `p / q`, computed as `⌊(2p + q) / (2q)⌋` in
natural-number arithmetic. -/
def mathRound (p q : Nat) : Nat :=
  (2 * p + q) / (2 * q)

/-- Round-half-up of the rational `p / q`, written as the spec words it:
the floor of the percentage plus one half.  This is the spec-side definition
used to check `mathRound` against the claimed rounding mode. -/
def roundHalfUp (p q : Nat) : Nat :=
  ⌊(p : ℚ) / (q : ℚ) + 1 / 2⌋₊

/-- The component state of `LessonContent` (the quiz state machine): the
`useState` hooks of the component, `src/unnamed/part_002` lines 101-110. -/
structure LessonState where
  currentQuestionIndex : Nat
  correctAnswers : Nat
  showingHiragana : Bool
  selectedAnswer : Option String
  isAnswered : Bool
  exerciseResults : List ExerciseResult
deriving DecidableEq, Repr

/-- The initial component state: index 0, nothing answered, empty log. -/
def initState : LessonState :=
  { currentQuestionIndex := 0
    correctAnswers := 0
    showingHiragana := false
    selectedAnswer := none
    isAnswered := false
    exerciseResults := [] }

/-- A default exercise used to totalise list indexing; the component only ever
indexes within bounds (the guard at `part_002` lines 112-114 rules out empty
lessons before any handler can run). -/
def emptyExercise : Exercise := {}

/-- `LessonContent.handleAnswer` (`src/unnamed/part_002` lines 119-136): a no-op
when already answered; otherwise grades by exact string equality against the
current exercise's `correct` field, marks the question answered, bumps the
correct tally on a match, and appends exactly one `ExerciseResult`. -/
def handleAnswer (lesson : LessonData) (s : LessonState) (answer : String) : LessonState :=
  if s.isAnswered then s
  else
    let currentQuestion := lesson.exercises.getD s.currentQuestionIndex emptyExercise
    let isCorrect : Bool := decide (answer = currentQuestion.correct)
    { s with
      selectedAnswer := some answer
      isAnswered := true
      correctAnswers := if isCorrect then s.correctAnswers + 1 else s.correctAnswers
      exerciseResults := s.exerciseResults ++
        [{ word := currentQuestion.word
           is_correct := isCorrect
           question := currentQuestion.question }] }

/-- `LessonContent.handleNext` (`src/unnamed/part_002` lines 138-149): on the
last exercise it emits the completion callback with
`Math.round((correctAnswers / exercises.length) * 100)` and the result log and
leaves the component state untouched; otherwise it advances the index by one
and resets the per-question flags.  The emitted `onComplete` payload is
returned as the second component. -/
def handleNext (lesson : LessonData) (s : LessonState) :
    LessonState × Option (Nat × List ExerciseResult) :=
  if s.currentQuestionIndex = lesson.exercises.length - 1 then
    (s, some (mathRound (100 * s.correctAnswers) lesson.exercises.length, s.exerciseResults))
  else
    ({ s with
        currentQuestionIndex := s.currentQuestionIndex + 1
        selectedAnswer := none
        isAnswered := false
        showingHiragana := false }, none)

/-- A user action on the quiz: clicking an option (Submit) or the
Next/Complete button (Advance). -/
inductive Op where
  | submit (answer : String)
  | advance
deriving DecidableEq, Repr

/-- Effect of one user action on the component state (the emitted completion
payload, if any, is dropped here; `runSession` keeps it). -/
def applyOp (lesson : LessonData) (s : LessonState) : Op → LessonState
  | Op.submit a => handleAnswer lesson s a
  | Op.advance => (handleNext lesson s).1

/-- Component state after a sequence of user actions. -/
def runOps (lesson : LessonData) (s : LessonState) (ops : List Op) : LessonState :=
  ops.foldl (applyOp lesson) s

/-- Component state together with the log of completion callbacks delivered so
far (each is a score plus the result log passed to `onComplete`). -/
structure SessionState where
  ls : LessonState
  completions : List (Nat × List ExerciseResult)
deriving DecidableEq, Repr

/-- One user action on the session, accumulating emitted completion events. -/
def stepSession (lesson : LessonData) (s : SessionState) : Op → SessionState
  | Op.submit a => { s with ls := handleAnswer lesson s.ls a }
  | Op.advance =>
      let next := handleNext lesson s.ls
      { ls := next.1, completions := s.completions ++ next.2.toList }

/-- Session state after a sequence of user actions. -/
def runSession (lesson : LessonData) (s : SessionState) (ops : List Op) : SessionState :=
  ops.foldl (stepSession lesson) s

/-- The action sequence of answering every exercise in order: one Submit
followed by one Advance per answer. -/
def cycleOps : List String → List Op
  | [] => []
  | a :: rest => Op.submit a :: Op.advance :: cycleOps rest

/-- `ExerciseSection.handleAnswerSubmit` (`src/components/ExerciseSection.tsx`
lines 15-19): grades by exact string equality and forwards `(answer, isCorrect)`
to `onAnswer`. -/
def handleAnswerSubmit (exercise : Exercise) (answer : String) : String × Bool :=
  (answer, decide (answer = exercise.correct))

/-- The `useState` hooks of `LessonPage` (`src/app/lesson/page.tsx` lines 12-16). -/
structure PageState where
  lesson : Option LessonData := none
  isComplete : Bool := false
  score : Nat := 0
  error : Option String := none
  isLoading : Bool := true
deriving DecidableEq, Repr

/-- The page state at mount time. -/
def initialPageState : PageState := {}

/-- The `loadLesson` effect of `LessonPage` (`src/app/lesson/page.tsx` lines
21-35): sets the loading flag and clears the error, then either stores the
fetched lesson or stores the load-failure message; the loading flag is cleared
in the `finally` block.  The fetch outcome is passed in explicitly. -/
def loadLesson (ps : PageState) (outcome : Except String LessonData) : PageState :=
  let ps1 := { ps with isLoading := true, error := none }
  match outcome with
  | Except.ok l => { ps1 with lesson := some l, isLoading := false }
  | Except.error _ =>
      { ps1 with error := some "Failed to load lesson. Please try again.", isLoading := false }

/-- `LessonPage.startNewLesson` (`src/app/lesson/page.tsx` lines 66-84): resets
the lesson, completion flag and score, sets the loading flag, and (when a user
is signed in) re-issues the lesson fetch, storing the result or a failure
message.  Note: unlike `loadLesson`, it never clears the `error` state. -/
def startNewLesson (user : Option String) (ps : PageState)
    (outcome : Except String LessonData) : PageState :=
  let ps1 := { ps with lesson := none, isComplete := false, score := 0, isLoading := true }
  match user with
  | none => ps1
  | some _ =>
      match outcome with
      | Except.ok l => { ps1 with lesson := some l, isLoading := false }
      | Except.error _ =>
          { ps1 with error := some "Failed to load new lesson. Please try again.",
                     isLoading := false }

/-- The `ProgressData` built by `LessonPage.handleComplete`
(`src/app/lesson/page.tsx` lines 49-57): note `questions_correct` is
reconstructed from the already-rounded score percentage as
`Math.round((finalScore / 100) * exercises.length)`, not taken from the
running tally. -/
def mkProgressData (lesson : LessonData) (finalScore : Nat)
    (results : List ExerciseResult) (timestamp : String) : ProgressData :=
  { lesson_number := some (lesson.lesson_number.getD 1)
    completed := true
    score := finalScore
    questions_total := lesson.exercises.length
    questions_correct := mathRound (finalScore * lesson.exercises.length) 100
    timestamp := timestamp
    exercises := results }

/-- `LessonPage.handleComplete` (`src/app/lesson/page.tsx` lines 38-64): bails
out when no user or no lesson is present; otherwise stores the score, sets the
completion flag, builds the progress record and posts it.  The score and
completion flag are set before the save is awaited, and a failed save is caught
and only logged, so the resulting page state is the same for either save
outcome and the function always returns (no exception propagates). -/
def handleComplete (user : Option String) (ps : PageState) (finalScore : Nat)
    (results : List ExerciseResult) (timestamp : String)
    (saveOutcome : Except String Unit) : PageState × Option ProgressData :=
  match user, ps.lesson with
  | some _, some lesson =>
      let ps2 := { ps with score := finalScore, isComplete := true }
      let pd := mkProgressData lesson finalScore results timestamp
      match saveOutcome with
      | Except.ok _ => (ps2, some pd)
      | Except.error _ => (ps2, some pd)
  | _, _ => (ps, none)

/-- What `LessonContent` renders (`src/unnamed/part_002` lines 112-117): the
inline fallback text when the lesson has no exercises, otherwise the question
card for the current exercise. -/
inductive LessonView where
  | noContent
  | exercise (e : Exercise) (index : Nat)
deriving DecidableEq, Repr

/-- The early-return guard of `LessonContent` (`src/unnamed/part_002` lines
112-114): a lesson with an empty exercise list renders the
"No lesson content available" fallback (with no retry action); otherwise the
current question is rendered. -/
def renderLessonContent (lesson : LessonData) (s : LessonState) : LessonView :=
  if lesson.exercises.length = 0 then LessonView.noContent
  else LessonView.exercise (lesson.exercises.getD s.currentQuestionIndex emptyExercise)
        s.currentQuestionIndex

/-- What `LessonPage` renders (`src/app/lesson/page.tsx` lines 86-124). -/
inductive Rendered where
  | loginPrompt
  | loading
  | errorScreen (msg : String)
  | completeScreen (score : Nat)
  | lessonView (v : LessonView)
  | empty
deriving DecidableEq, Repr

/-- The conditional rendering chain of `LessonPage` (`src/app/lesson/page.tsx`
lines 86-124): login prompt without a user, then loading spinner, then the
page-level error screen (with its Try Again action), then the completion
screen, then the lesson content (freshly mounted, so at `initState`). -/
def renderPage (user : Option String) (ps : PageState) : Rendered :=
  match user with
  | none => Rendered.loginPrompt
  | some _ =>
      if ps.isLoading then Rendered.loading
      else
        match ps.error with
        | some msg => Rendered.errorScreen msg
        | none =>
            if ps.isComplete then Rendered.completeScreen ps.score
            else
              match ps.lesson with
              | some l => Rendered.lessonView (renderLessonContent l initState)
              | none => Rendered.empty

/-- The podcast lifecycle status enum rendered by `PodcastItem`
(`src/unnamed/part_001` line 17). -/
inductive PodcastStatus where
  | queued
  | processing
  | completed
  | error
deriving DecidableEq, Repr

/-- A fetched podcast entry, as declared in `src/lib/api.ts` (`PodcastData`)
plus the extra fields `PodcastLibrary` reads from it (`src/unnamed/part_005`
lines 164-176).  Note: it carries no lifecycle status field. -/
structure PodcastData where
  id : String
  name : String
  show_name : String
  show_publisher : Option String
  description : String
  release_date : String
  totalWords : Nat
  wordsEncountered : Nat
  wordsMastered : Nat
  image_url : Option String
deriving DecidableEq, Repr

/-- The props `PodcastItem` receives (`src/unnamed/part_001` lines 7-24). -/
structure PodcastItemProps where
  id : String
  title : String
  description : String
  duration : String
  show_name : String
  show_publisher : String
  release_date : String
  totalWords : Nat
  wordsEncountered : Nat
  wordsMastered : Nat
  imageUrl : String
  status : PodcastStatus
deriving DecidableEq, Repr

/-- The podcast-to-props mapping of `PodcastLibrary` (`src/unnamed/part_005`
lines 161-179): every fetched entry is passed to `PodcastItem` with the
literal status `'completed'`. -/
def buildPodcastItem (p : PodcastData) : PodcastItemProps :=
  { id := p.id
    title := p.name
    description := p.description
    duration := "N/A"
    show_name := p.show_name
    show_publisher := p.show_publisher.getD "Unknown"
    release_date := p.release_date
    totalWords := p.totalWords
    wordsEncountered := p.wordsEncountered
    wordsMastered := p.wordsMastered
    imageUrl := p.image_url.getD "/placeholder.svg"
    status := PodcastStatus.completed }

/-- An HTTP request issued by the podcast library surface. -/
inductive ApiRequest where
  | getPodcastsReq (userId : Option String)
  | processQueueReq (count : Nat)
deriving DecidableEq, Repr

/-- Modelled from the spec: `api.processQueue` is called by
`PodcastItem.handleStartProcessing` (`src/unnamed/part_001` line 36) but is not
declared anywhere under `src/` (in particular not in `src/lib/api.ts`).  The
spec's AdvanceQueue operation "explicitly requests the backend to process one
queued item", so the call is modelled as issuing exactly one such request. -/
def processQueue (count : Nat) : List ApiRequest :=
  [ApiRequest.processQueueReq count]

/-- The single request issued by `PodcastLibrary.loadPodcasts`
(`src/unnamed/part_005` lines 26-38), which is what `onRefresh` runs; its own
failures are caught internally and never reach the caller. -/
def loadPodcastsRequests (userId : Option String) : List ApiRequest :=
  [ApiRequest.getPodcastsReq userId]

/-- The local state of one `PodcastItem` (`src/unnamed/part_001` lines 27-28). -/
structure PodcastItemState where
  isProcessing : Bool := false
  itemError : Option String := none
deriving DecidableEq, Repr

/-- `PodcastItem.handleStartProcessing` (`src/unnamed/part_001` lines 32-44):
clears the item error, issues one process-queue request for a single item, and
on success refreshes the list; a failure is caught and stored as an item-level
error message (the function always returns, and `isProcessing` is reset in the
`finally` block).  Returns the new item state and the requests issued. -/
def handleStartProcessing (_st : PodcastItemState) (userId : Option String)
    (processOutcome : Except String Unit) : PodcastItemState × List ApiRequest :=
  match processOutcome with
  | Except.ok _ =>
      ({ isProcessing := false, itemError := none },
        processQueue 1 ++ loadPodcastsRequests userId)
  | Except.error _ =>
      ({ isProcessing := false,
         itemError := some "Failed to process podcast. Please try again." },
        processQueue 1)

/-- Concrete one-exercise lesson (the spec's Scenario A). -/
def lesson1 : LessonData :=
  { exercises := [{ word := "konnichiwa", question := "How do you greet someone?",
                    options := ["hello", "goodbye"], correct := "hello" }]
    lesson_number := some 3 }

/-- Concrete two-exercise lesson (the spec's Scenario B). -/
def lesson2 : LessonData :=
  { exercises :=
      [{ word := "ichi", question := "What number is ichi?",
         options := ["one", "two"], correct := "one" },
       { word := "ni", question := "What number is ni?",
         options := ["one", "two"], correct := "two" }]
    lesson_number := some 7 }

/-- A fetched lesson with no exercises (a malformed payload). -/
def emptyLesson : LessonData := { exercises := [] }

/-- An exercise with zero options (the other malformed shape the spec names). -/
def zeroOptionsExercise : Exercise :=
  { word := "mizu", question := "What is mizu?", options := [], correct := "water" }

/-- A fetched lesson whose only exercise has zero options. -/
def zeroOptionsLesson : LessonData := { exercises := [zeroOptionsExercise] }

/-- Page state after a successful fetch of the malformed empty lesson. -/
def psEmpty : PageState := loadLesson initialPageState (Except.ok emptyLesson)

/-- Page state after a failed lesson fetch (the load-error state). -/
def psError : PageState := loadLesson initialPageState (Except.error "Network Error")

/-- Page state after pressing Try Again in the load-error state when the
re-issued fetch succeeds. -/
def psRetry : PageState := startNewLesson (some "user-1") psError (Except.ok lesson1)

/-- A concrete fetched podcast entry. -/
def podcastA : PodcastData :=
  { id := "ep-1", name := "Daily Japanese", show_name := "NihongoCast",
    show_publisher := some "NC Media", description := "Everyday phrases",
    release_date := "2024-01-05", totalWords := 60, wordsEncountered := 45,
    wordsMastered := 32, image_url := some "/a.png" }

/-- A second, entirely different fetched podcast entry. -/
def podcastB : PodcastData :=
  { id := "ep-2", name := "Culture Talk", show_name := "JP Stories",
    show_publisher := none, description := "Traditions and culture",
    release_date := "2024-02-11", totalWords := 120, wordsEncountered := 7,
    wordsMastered := 0, image_url := none }

/-- Reachability invariant of the quiz component state: the correct tally is
exactly the number of correct entries in the result log, the log never exceeds
the number of questions reached, and the index stays in bounds. -/
def QuizInv (lesson : LessonData) (s : LessonState) : Prop :=
  s.correctAnswers = (s.exerciseResults.filter (fun r => r.is_correct)).length ∧
  s.exerciseResults.length ≤
    s.currentQuestionIndex + (if s.isAnswered then 1 else 0) ∧
  (1 ≤ lesson.exercises.length → s.currentQuestionIndex < lesson.exercises.length)

theorem mathRound_eq_roundHalfUp (p q : Nat) (hq : 0 < q) :
    mathRound p q = roundHalfUp p q := by
  unfold mathRound roundHalfUp
  have hq' : (q : ℚ) ≠ 0 := by exact_mod_cast hq.ne'
  have h : (p : ℚ) / (q : ℚ) + 1 / 2 = ((2 * p + q : ℕ) : ℚ) / ((2 * q : ℕ) : ℚ) := by
    push_cast
    field_simp
    ring
  rw [h, Nat.floor_div_nat, Nat.floor_natCast]

theorem mathRound_le_100 (c N : Nat) (hc : c ≤ N) (hN : 0 < N) :
    mathRound (100 * c) N ≤ 100 := by
  unfold mathRound
  have h1 : 2 * (100 * c) + N ≤ 201 * N := by omega
  have h2 : (201 * N) / (2 * N) = 100 := by
    rw [Nat.mul_comm 201 N, Nat.mul_comm 2 N, Nat.mul_div_mul_left _ _ hN]
  calc (2 * (100 * c) + N) / (2 * N) ≤ (201 * N) / (2 * N) := Nat.div_le_div_right h1
    _ = 100 := h2

theorem mathRound_roundTrip (N c : Nat) (h1 : 0 < N) (h2 : N < 100) :
    mathRound (mathRound (100 * c) N * N) 100 = c := by
  unfold mathRound
  have h2N : 0 < 2 * N := by omega
  set s := (2 * (100 * c) + N) / (2 * N) with hsdef
  have hmod := Nat.div_add_mod (2 * (100 * c) + N) (2 * N)
  have hr : (2 * (100 * c) + N) % (2 * N) < 2 * N := Nat.mod_lt _ h2N
  rw [← hsdef] at hmod
  have key : 2 * (s * N) = 2 * N * s := by ring
  rw [key]
  generalize hrr : (2 * (100 * c) + N) % (2 * N) = r at hmod hr
  generalize hu : 2 * N * s = u at hmod ⊢
  omega

theorem quizInv_initState (lesson : LessonData) : QuizInv lesson initState := by
  refine ⟨rfl, by simp [initState], fun h => h⟩

theorem quizInv_applyOp (lesson : LessonData) (s : LessonState) (op : Op)
    (h : QuizInv lesson s) : QuizInv lesson (applyOp lesson s op) := by
  obtain ⟨h1, h2, h3⟩ := h
  cases op with
  | submit a =>
      cases hA : s.isAnswered with
      | true => simpa [applyOp, handleAnswer, hA] using ⟨h1, h2, h3⟩
      | false =>
          have h2' : s.exerciseResults.length ≤ s.currentQuestionIndex := by
            simpa [hA] using h2
          simp only [applyOp, handleAnswer, hA, Bool.false_eq_true, if_false]
          refine ⟨?_, ?_, h3⟩
          · simp only [List.filter_append, List.length_append]
            cases hc : decide
                (a = (lesson.exercises.getD s.currentQuestionIndex emptyExercise).correct) with
            | true => simp [hc, h1]
            | false => simp [hc, h1]
          · simp only [List.length_append, List.length_cons, List.length_nil]
            simp only [if_true, reduceIte]
            omega
  | advance =>
      by_cases hL : s.currentQuestionIndex = lesson.exercises.length - 1
      · simpa [applyOp, handleNext, hL] using ⟨h1, h2, h3⟩
      · simp only [applyOp, handleNext, hL, if_false]
        refine ⟨h1, ?_, ?_⟩
        · have hlen : s.exerciseResults.length ≤ s.currentQuestionIndex + 1 := by
            cases hB : s.isAnswered <;> rw [hB] at h2 <;> simp at h2 <;> omega
          show s.exerciseResults.length ≤ s.currentQuestionIndex + 1 +
            (if (false = true) then 1 else 0)
          simpa using hlen
        · intro hN
          have h4 := h3 hN
          show s.currentQuestionIndex + 1 < lesson.exercises.length
          omega

theorem quizInv_runOps (lesson : LessonData) (ops : List Op) (s : LessonState)
    (h : QuizInv lesson s) : QuizInv lesson (runOps lesson s ops) := by
  induction ops generalizing s with
  | nil => simpa [runOps] using h
  | cons op rest ih =>
      simp only [runOps, List.foldl_cons]
      exact ih _ (quizInv_applyOp lesson s op h)

theorem score_emit (lesson : LessonData) (s : LessonState) (hInv : QuizInv lesson s)
    (h1 : 1 ≤ lesson.exercises.length)
    (hlast : s.currentQuestionIndex + 1 = lesson.exercises.length) :
    (handleNext lesson s).2 =
      some (mathRound (100 * s.correctAnswers) lesson.exercises.length, s.exerciseResults) ∧
    mathRound (100 * s.correctAnswers) lesson.exercises.length =
      roundHalfUp (100 * s.correctAnswers) lesson.exercises.length ∧
    mathRound (100 * s.correctAnswers) lesson.exercises.length ≤ 100 := by
  obtain ⟨i1, i2, i3⟩ := hInv
  have hb : s.exerciseResults.length ≤ s.currentQuestionIndex + 1 := by
    cases hB : s.isAnswered <;> rw [hB] at i2 <;> simp at i2 <;> omega
  have hfl : (s.exerciseResults.filter (fun r => r.is_correct)).length ≤
      s.exerciseResults.length := List.length_filter_le _ _
  have hcN : s.correctAnswers ≤ lesson.exercises.length := by omega
  have hidx : s.currentQuestionIndex = lesson.exercises.length - 1 := by omega
  exact ⟨by simp [handleNext, hidx], mathRound_eq_roundHalfUp _ _ (by omega),
    mathRound_le_100 _ _ hcN (by omega)⟩

/-- C1: on a lesson with at least one exercise, when Advance fires on the last
exercise, the completion callback is emitted with score
`Math.round(100 * correctAnswers / N)`, this rounding is exactly round-half-up
on the percentage, and the score is at most 100 (it is a natural number, hence
an integer in `[0, 100]`). -/
theorem score_on_last_advance (lesson : LessonData) (ops : List Op)
    (h1 : 1 ≤ lesson.exercises.length)
    (hlast : (runOps lesson initState ops).currentQuestionIndex + 1 =
      lesson.exercises.length) :
    (handleNext lesson (runOps lesson initState ops)).2 =
      some (mathRound (100 * (runOps lesson initState ops).correctAnswers)
              lesson.exercises.length,
            (runOps lesson initState ops).exerciseResults) ∧
    mathRound (100 * (runOps lesson initState ops).correctAnswers)
        lesson.exercises.length =
      roundHalfUp (100 * (runOps lesson initState ops).correctAnswers)
        lesson.exercises.length ∧
    mathRound (100 * (runOps lesson initState ops).correctAnswers)
        lesson.exercises.length ≤ 100 :=
  score_emit lesson (runOps lesson initState ops)
    (quizInv_runOps lesson ops initState (quizInv_initState lesson)) h1 hlast

theorem score_on_last_advance_witness :
    (1 ≤ lesson1.exercises.length ∧
      (runOps lesson1 initState []).currentQuestionIndex + 1 =
        lesson1.exercises.length) ∧
    ((handleNext lesson1 (runOps lesson1 initState [])).2 =
      some (mathRound (100 * (runOps lesson1 initState []).correctAnswers)
              lesson1.exercises.length,
            (runOps lesson1 initState []).exerciseResults) ∧
    mathRound (100 * (runOps lesson1 initState []).correctAnswers)
        lesson1.exercises.length =
      roundHalfUp (100 * (runOps lesson1 initState []).correctAnswers)
        lesson1.exercises.length ∧
    mathRound (100 * (runOps lesson1 initState []).correctAnswers)
        lesson1.exercises.length ≤ 100) :=
  ⟨⟨by decide, by decide⟩, score_on_last_advance lesson1 [] (by decide) (by decide)⟩

/-- C3: submitting an answer in the unanswered state appends exactly one
`ExerciseResult` whose correctness flag holds if and only if the submitted
option string is exactly equal to the current exercise's `correct` field;
`ExerciseSection.handleAnswerSubmit` grades by the same exact string equality. -/
theorem submit_records_exact_match (lesson : LessonData) (s : LessonState) (answer : String)
    (hA : s.isAnswered = false)
    (_hidx : s.currentQuestionIndex < lesson.exercises.length) :
    (handleAnswer lesson s answer).exerciseResults =
      s.exerciseResults ++
        [{ word := (lesson.exercises.getD s.currentQuestionIndex emptyExercise).word
           is_correct :=
             decide (answer = (lesson.exercises.getD s.currentQuestionIndex emptyExercise).correct)
           question := (lesson.exercises.getD s.currentQuestionIndex emptyExercise).question }] ∧
    (handleAnswer lesson s answer).exerciseResults.length = s.exerciseResults.length + 1 ∧
    (decide (answer = (lesson.exercises.getD s.currentQuestionIndex emptyExercise).correct) = true ↔
      answer = (lesson.exercises.getD s.currentQuestionIndex emptyExercise).correct) ∧
    (handleAnswerSubmit (lesson.exercises.getD s.currentQuestionIndex emptyExercise) answer).2 =
      decide (answer = (lesson.exercises.getD s.currentQuestionIndex emptyExercise).correct) := by
  refine ⟨?_, ?_, decide_eq_true_iff, rfl⟩
  · simp [handleAnswer, hA]
  · simp [handleAnswer, hA]

theorem submit_records_exact_match_witness :
    (initState.isAnswered = false ∧
      initState.currentQuestionIndex < lesson1.exercises.length) ∧
    ((handleAnswer lesson1 initState "hello").exerciseResults =
      initState.exerciseResults ++
        [{ word := (lesson1.exercises.getD initState.currentQuestionIndex emptyExercise).word
           is_correct :=
             decide ("hello" =
               (lesson1.exercises.getD initState.currentQuestionIndex emptyExercise).correct)
           question :=
             (lesson1.exercises.getD initState.currentQuestionIndex emptyExercise).question }] ∧
    (handleAnswer lesson1 initState "hello").exerciseResults.length =
      initState.exerciseResults.length + 1 ∧
    (decide ("hello" =
        (lesson1.exercises.getD initState.currentQuestionIndex emptyExercise).correct) = true ↔
      "hello" = (lesson1.exercises.getD initState.currentQuestionIndex emptyExercise).correct) ∧
    (handleAnswerSubmit (lesson1.exercises.getD initState.currentQuestionIndex emptyExercise)
        "hello").2 =
      decide ("hello" =
        (lesson1.exercises.getD initState.currentQuestionIndex emptyExercise).correct)) :=
  ⟨⟨by decide, by decide⟩,
    submit_records_exact_match lesson1 initState "hello" (by decide) (by decide)⟩

theorem applyOp_index_mono (lesson : LessonData) (s : LessonState) (op : Op) :
    s.currentQuestionIndex ≤ (applyOp lesson s op).currentQuestionIndex ∧
    ((applyOp lesson s op).currentQuestionIndex ≠ s.currentQuestionIndex →
      op = Op.advance ∧ s.currentQuestionIndex ≠ lesson.exercises.length - 1 ∧
      (applyOp lesson s op).currentQuestionIndex = s.currentQuestionIndex + 1) := by
  cases op with
  | submit a =>
      have hidx : (applyOp lesson s (Op.submit a)).currentQuestionIndex =
          s.currentQuestionIndex := by
        cases hA : s.isAnswered <;> simp [applyOp, handleAnswer, hA]
      rw [hidx]
      exact ⟨le_rfl, fun hne => absurd rfl hne⟩
  | advance =>
      by_cases hL : s.currentQuestionIndex = lesson.exercises.length - 1
      · have hidx : (applyOp lesson s Op.advance).currentQuestionIndex =
            s.currentQuestionIndex := by
          simp [applyOp, handleNext, hL]
        rw [hidx]
        exact ⟨le_rfl, fun hne => absurd rfl hne⟩
      · have hidx : (applyOp lesson s Op.advance).currentQuestionIndex =
            s.currentQuestionIndex + 1 := by
          simp [applyOp, handleNext, hL]
        rw [hidx]
        exact ⟨Nat.le_succ _, fun _ => ⟨rfl, hL, rfl⟩⟩

/-- C4: in a session over a lesson with at least one exercise, the current
exercise index is always in `[0, N)`, every operation leaves it equal or
larger, and it changes only by exactly one, only on Advance, and only when the
current index is not the last. -/
theorem index_monotone_in_bounds (lesson : LessonData) (ops : List Op)
    (h1 : 1 ≤ lesson.exercises.length) :
    (runOps lesson initState ops).currentQuestionIndex < lesson.exercises.length ∧
    ∀ op : Op,
      (runOps lesson initState ops).currentQuestionIndex ≤
        (applyOp lesson (runOps lesson initState ops) op).currentQuestionIndex ∧
      ((applyOp lesson (runOps lesson initState ops) op).currentQuestionIndex ≠
          (runOps lesson initState ops).currentQuestionIndex →
        op = Op.advance ∧
        (runOps lesson initState ops).currentQuestionIndex ≠
          lesson.exercises.length - 1 ∧
        (applyOp lesson (runOps lesson initState ops) op).currentQuestionIndex =
          (runOps lesson initState ops).currentQuestionIndex + 1) := by
  obtain ⟨_, _, i3⟩ := quizInv_runOps lesson ops initState (quizInv_initState lesson)
  exact ⟨i3 h1, fun op => applyOp_index_mono lesson (runOps lesson initState ops) op⟩

theorem index_monotone_in_bounds_witness :
    1 ≤ lesson2.exercises.length ∧
    ((runOps lesson2 initState [Op.submit "one", Op.advance]).currentQuestionIndex <
      lesson2.exercises.length ∧
    ∀ op : Op,
      (runOps lesson2 initState [Op.submit "one", Op.advance]).currentQuestionIndex ≤
        (applyOp lesson2 (runOps lesson2 initState [Op.submit "one", Op.advance])
          op).currentQuestionIndex ∧
      ((applyOp lesson2 (runOps lesson2 initState [Op.submit "one", Op.advance])
            op).currentQuestionIndex ≠
          (runOps lesson2 initState [Op.submit "one", Op.advance]).currentQuestionIndex →
        op = Op.advance ∧
        (runOps lesson2 initState [Op.submit "one", Op.advance]).currentQuestionIndex ≠
          lesson2.exercises.length - 1 ∧
        (applyOp lesson2 (runOps lesson2 initState [Op.submit "one", Op.advance])
            op).currentQuestionIndex =
          (runOps lesson2 initState [Op.submit "one", Op.advance]).currentQuestionIndex + 1)) :=
  ⟨by decide, index_monotone_in_bounds lesson2 [Op.submit "one", Op.advance] (by decide)⟩

theorem runSession_cycles (lesson : LessonData) :
    ∀ (rs : List String) (ls : LessonState) (cs : List (Nat × List ExerciseResult)),
      ls.isAnswered = false →
      ls.currentQuestionIndex + rs.length = lesson.exercises.length →
      1 ≤ rs.length →
      ∃ sc log,
        (runSession lesson ⟨ls, cs⟩ (cycleOps rs)).completions = cs ++ [(sc, log)] ∧
        log.length = ls.exerciseResults.length + rs.length := by
  intro rs
  induction rs with
  | nil => intro ls cs _ _ h3; simp at h3
  | cons a rest ih =>
      intro ls cs hA hN _
      cases rest with
      | nil =>
          have hidx : ls.currentQuestionIndex = lesson.exercises.length - 1 := by
            simp at hN
            omega
          refine ⟨mathRound (100 * (handleAnswer lesson ls a).correctAnswers)
                    lesson.exercises.length,
                  (handleAnswer lesson ls a).exerciseResults, ?_, ?_⟩
          · have hidx1 : (handleAnswer lesson ls a).currentQuestionIndex =
                lesson.exercises.length - 1 := by
              simp [handleAnswer, hA, hidx]
            simp [cycleOps, runSession, stepSession, handleNext, hidx1]
          · simp [handleAnswer, hA]
      | cons b t =>
          have hne : ls.currentQuestionIndex ≠ lesson.exercises.length - 1 := by
            simp at hN
            omega
          have hidx1 : (handleAnswer lesson ls a).currentQuestionIndex =
              ls.currentQuestionIndex := by
            simp [handleAnswer, hA]
          have hev : handleNext lesson (handleAnswer lesson ls a) =
              ({ handleAnswer lesson ls a with
                  currentQuestionIndex := ls.currentQuestionIndex + 1
                  selectedAnswer := none
                  isAnswered := false
                  showingHiragana := false }, none) := by
            simp [handleNext, hidx1, hne]
          obtain ⟨sc, log, hcomp, hlen⟩ :=
            ih { handleAnswer lesson ls a with
                  currentQuestionIndex := ls.currentQuestionIndex + 1
                  selectedAnswer := none
                  isAnswered := false
                  showingHiragana := false } cs rfl
              (by
                simp only [List.length_cons]
                simp at hN
                omega)
              (by simp)
          refine ⟨sc, log, ?_, ?_⟩
          · have hrun : runSession lesson ⟨ls, cs⟩ (cycleOps (a :: b :: t)) =
                runSession lesson
                  ⟨{ handleAnswer lesson ls a with
                      currentQuestionIndex := ls.currentQuestionIndex + 1
                      selectedAnswer := none
                      isAnswered := false
                      showingHiragana := false }, cs⟩ (cycleOps (b :: t)) := by
              simp [cycleOps, runSession, stepSession, hev]
            rw [hrun]
            exact hcomp
          · simp only [List.length_cons] at hlen ⊢
            simp [handleAnswer, hA] at hlen
            omega

/-- C2: on a lesson with `N ≥ 1` exercises, after `N` Submit-then-Advance
cycles starting from the fresh component state (index 0, unanswered), exactly
one completion callback has been delivered, and the `ExerciseResult` log it
carries has length exactly `N`.  The parent `LessonPage.handleComplete` turns
that callback into the `Complete` screen (see the C5 theorem). -/
theorem session_completes_after_n_cycles (lesson : LessonData) (answers : List String)
    (h1 : 1 ≤ lesson.exercises.length)
    (h2 : answers.length = lesson.exercises.length) :
    ∃ sc log,
      (runSession lesson ⟨initState, []⟩ (cycleOps answers)).completions = [(sc, log)] ∧
      log.length = lesson.exercises.length := by
  obtain ⟨sc, log, hcomp, hlen⟩ :=
    runSession_cycles lesson answers initState [] rfl (by simp [initState, h2]) (by omega)
  refine ⟨sc, log, by simpa using hcomp, ?_⟩
  simp [initState] at hlen
  omega

theorem session_completes_after_n_cycles_witness :
    (1 ≤ lesson2.exercises.length ∧ (["one", "one"] : List String).length =
      lesson2.exercises.length) ∧
    (∃ sc log,
      (runSession lesson2 ⟨initState, []⟩ (cycleOps ["one", "one"])).completions =
        [(sc, log)] ∧
      log.length = lesson2.exercises.length) :=
  ⟨⟨by decide, by decide⟩,
    session_completes_after_n_cycles lesson2 ["one", "one"] (by decide) (by decide)⟩

/-- C5: once `handleComplete` runs after completion, the completion flag and
score are set regardless of the progress-save outcome (the failed save is
caught and only logged, so no exception reaches the rendering layer), and the
page renders the completion screen with the computed score. -/
theorem completion_shown_despite_save_failure (user : String) (ps : PageState)
    (l : LessonData) (finalScore : Nat) (results : List ExerciseResult) (ts : String)
    (saveOutcome : Except String Unit)
    (hl : ps.lesson = some l) (he : ps.error = none) (hld : ps.isLoading = false) :
    (handleComplete (some user) ps finalScore results ts saveOutcome).1.isComplete = true ∧
    (handleComplete (some user) ps finalScore results ts saveOutcome).1.score = finalScore ∧
    renderPage (some user)
        (handleComplete (some user) ps finalScore results ts saveOutcome).1 =
      Rendered.completeScreen finalScore := by
  cases saveOutcome <;> simp [handleComplete, renderPage, hl, he, hld]

theorem completion_shown_despite_save_failure_witness :
    ((loadLesson initialPageState (Except.ok lesson1)).lesson = some lesson1 ∧
      (loadLesson initialPageState (Except.ok lesson1)).error = none ∧
      (loadLesson initialPageState (Except.ok lesson1)).isLoading = false) ∧
    ((handleComplete (some "user-1") (loadLesson initialPageState (Except.ok lesson1)) 100
        [] "2024-01-01" (Except.error "save failed")).1.isComplete = true ∧
    (handleComplete (some "user-1") (loadLesson initialPageState (Except.ok lesson1)) 100
        [] "2024-01-01" (Except.error "save failed")).1.score = 100 ∧
    renderPage (some "user-1")
        (handleComplete (some "user-1") (loadLesson initialPageState (Except.ok lesson1)) 100
          [] "2024-01-01" (Except.error "save failed")).1 =
      Rendered.completeScreen 100) :=
  ⟨⟨by decide, by decide, by decide⟩,
    completion_shown_despite_save_failure "user-1"
      (loadLesson initialPageState (Except.ok lesson1)) lesson1 100 [] "2024-01-01"
      (Except.error "save failed") (by decide) (by decide) (by decide)⟩

/-- C6 counterexample: a successfully fetched lesson with no exercises does
not put the page in the load-error state (the page-level error message with
the Try Again action); it renders `LessonContent`, which shows the inline
"No lesson content available" fallback with no retry action.  This refutes the
claim that a malformed lesson transitions to the load-error state. -/
theorem empty_lesson_not_error_state :
    renderPage (some "user-1") psEmpty = Rendered.lessonView LessonView.noContent ∧
    renderPage (some "user-1") psEmpty ≠
      Rendered.errorScreen "Failed to load lesson. Please try again." := by
  exact ⟨rfl, by decide⟩

/-- C6 amended: a fetched lesson with no exercises is not presented as an
exercise session, but it is not routed to the page-level load-error state
either: `LessonContent` renders the inline "No lesson content available"
fallback, with no retry action.  An exercise with zero options is not guarded
at all: a lesson whose only exercise has zero options is presented as a normal
in-progress exercise session. -/
theorem malformed_lesson_renders_fallback (user : String) (l : LessonData)
    (hl : l.exercises = []) :
    renderPage (some user) (loadLesson initialPageState (Except.ok l)) =
      Rendered.lessonView LessonView.noContent ∧
    (∀ msg : String,
      renderPage (some user) (loadLesson initialPageState (Except.ok l)) ≠
        Rendered.errorScreen msg) ∧
    renderPage (some user) (loadLesson initialPageState (Except.ok zeroOptionsLesson)) =
      Rendered.lessonView (LessonView.exercise zeroOptionsExercise 0) := by
  refine ⟨?_, ?_, rfl⟩
  · simp [renderPage, loadLesson, initialPageState, renderLessonContent, hl]
  · intro msg
    simp [renderPage, loadLesson, initialPageState, renderLessonContent, hl]

theorem malformed_lesson_renders_fallback_witness :
    emptyLesson.exercises = [] ∧
    (renderPage (some "user-1") (loadLesson initialPageState (Except.ok emptyLesson)) =
      Rendered.lessonView LessonView.noContent ∧
    (∀ msg : String,
      renderPage (some "user-1") (loadLesson initialPageState (Except.ok emptyLesson)) ≠
        Rendered.errorScreen msg) ∧
    renderPage (some "user-1") (loadLesson initialPageState (Except.ok zeroOptionsLesson)) =
      Rendered.lessonView (LessonView.exercise zeroOptionsExercise 0)) :=
  ⟨rfl, malformed_lesson_renders_fallback "user-1" emptyLesson rfl⟩

/-- C7: evaluation of the failing input.  After a failed load the page is in
the error state; pressing Try Again runs `startNewLesson`, which re-issues the
load, but even when that load succeeds (here with `lesson1`) the lesson is
stored yet the page still renders the error screen, because `startNewLesson`
never clears the `error` state — the claim's "error state is cleared and the
freshly loaded lesson is presented" is violated, while the parallel
`loadLesson` path does clear the error, showing the omission is a slip. -/
theorem retry_success_still_error_screen :
    psRetry.lesson = some lesson1 ∧
    psRetry.error = some "Failed to load lesson. Please try again." ∧
    renderPage (some "user-1") psRetry =
      Rendered.errorScreen "Failed to load lesson. Please try again." :=
  ⟨rfl, rfl, rfl⟩

/-- C8 counterexample: the client passes every fetched entry to `PodcastItem`
with the hardcoded status `completed` — here two entries differing in every
field both render as `completed` — and the fetched `PodcastData` carries no
lifecycle status field at all, so the rendered status is a value chosen by the
client, refuting the claim that it is the status carried by the fetched
entry. -/
theorem podcast_status_hardcoded_counterexample :
    (buildPodcastItem podcastA).status = PodcastStatus.completed ∧
    (buildPodcastItem podcastB).status = PodcastStatus.completed ∧
    podcastA.id ≠ podcastB.id :=
  ⟨rfl, rfl, by decide⟩

/-- C8 amended: every podcast entry returned by List(userId) is rendered with
the status `completed`, hardcoded by the client in `PodcastLibrary`; the
fetched entry carries no status field, so the displayed lifecycle status is
chosen by the client, not reported by the server. -/
theorem podcast_status_always_completed (p : PodcastData) :
    (buildPodcastItem p).status = PodcastStatus.completed := rfl

/-- C9: the manual "start processing" action issues exactly one request asking
the backend to process one queued item; on success it then refreshes the list
(one getPodcasts request), and on failure it stores an item-level error
message instead of throwing (the handler is total and resets the in-flight
flag either way). -/
theorem advance_queue_single_request (st : PodcastItemState) (userId : Option String)
    (e : String) :
    (handleStartProcessing st userId (Except.ok ())).2 =
      [ApiRequest.processQueueReq 1, ApiRequest.getPodcastsReq userId] ∧
    (handleStartProcessing st userId (Except.error e)).2 =
      [ApiRequest.processQueueReq 1] ∧
    (handleStartProcessing st userId (Except.error e)).1.itemError =
      some "Failed to process podcast. Please try again." ∧
    (handleStartProcessing st userId (Except.ok ())).1.itemError = none ∧
    (handleStartProcessing st userId (Except.ok ())).1.isProcessing = false ∧
    (handleStartProcessing st userId (Except.error e)).1.isProcessing = false :=
  ⟨rfl, rfl, rfl, rfl, rfl, rfl⟩

/-- C10: `questions_correct` in the submitted progress record is reconstructed
from the already-rounded score percentage as
`Math.round((finalScore / 100) * N)` (see `mkProgressData`), not taken from
the running tally; for every lesson with `1 ≤ N < 100` exercises this
round-trip recovers exactly the session's tally of correct answers. -/
theorem questions_correct_roundtrip (lesson : LessonData) (ops : List Op)
    (results : List ExerciseResult) (ts : String)
    (h1 : 1 ≤ lesson.exercises.length) (h2 : lesson.exercises.length < 100) :
    (mkProgressData lesson
        (mathRound (100 * (runOps lesson initState ops).correctAnswers)
          lesson.exercises.length)
        results ts).questions_correct =
      (runOps lesson initState ops).correctAnswers := by
  simp only [mkProgressData]
  exact mathRound_roundTrip lesson.exercises.length _ (by omega) h2

theorem questions_correct_roundtrip_witness :
    (1 ≤ lesson2.exercises.length ∧ lesson2.exercises.length < 100) ∧
    (mkProgressData lesson2
        (mathRound (100 * (runOps lesson2 initState [Op.submit "one"]).correctAnswers)
          lesson2.exercises.length)
        [] "2024-01-01").questions_correct =
      (runOps lesson2 initState [Op.submit "one"]).correctAnswers :=
  ⟨⟨by decide, by decide⟩,
    questions_correct_roundtrip lesson2 [Op.submit "one"] [] "2024-01-01"
      (by decide) (by decide)⟩
